import Mathlib

/-!
Verification of the scraper-monitoring facade.

This development shallowly embeds the operation-tracking context manager
(`ScrapingContext.scrape_operation` in `context.py`), the tracking decorator
(`track_scrape_operation` in `decorators.py`), the health registry
(`health.py`), and the label contracts (`config.py`, `metrics.py`,
`logger.py`).  Side effects (log emissions, metric recordings) are modelled
as an explicit trace of events; times and durations are abstract naturals.
-/

/-- A Python exception, reduced to the two observables the tracker uses:
`type(e).__name__` and `str(e)`. -/
structure PyExc where
  ty : String
  msg : String
deriving DecidableEq, Repr

/-- One observable side effect of the tracking layer: a structured log
emission or a metric recording.  The constructors mirror the individual
`logger.*` / `metrics.record_*` call sites in `context.py` and
`decorators.py`. -/
inductive Event where
  /-- `op_logger.info("Scraping operation started")` in `scrape_operation`,
  with the bound context {operation, url, url_domain}. -/
  | ctxLogStarted (op url domain : String)
  /-- `op_logger.info("Scraping operation completed successfully", duration_seconds=d)`. -/
  | ctxLogSuccess (op : String) (dur : Nat)
  /-- `op_logger.error("Scraping operation failed", error=..., error_type=..., duration_seconds=...)`. -/
  | ctxLogFailed (op errorType errorMsg : String) (dur : Nat)
  /-- `logger.log_scrape_start(url, operation_name)` in the decorator. -/
  | decLogStart (url op : String)
  /-- `logger.log_scrape_success(url, items_count, operation_name)` in the decorator. -/
  | decLogSuccess (url : String) (itemsCount : Nat) (op : String)
  /-- `logger.log_scrape_error(url, error_msg, operation_name)` in the decorator. -/
  | decLogError (url errorMsg op : String)
  /-- `metrics.record_scrape_request(operation, status, url_domain)`:
  one increment of the request-outcome counter. -/
  | incScrapeRequest (op status domain : String)
  /-- `metrics.record_scrape_duration(operation, url_domain, duration)`:
  one observation of the duration histogram. -/
  | obsScrapeDuration (op domain : String) (dur : Nat)
  /-- `metrics.record_items_scraped(operation, item_type, count)`. -/
  | incItemsScraped (op itemType : String) (count : Nat)
  /-- `metrics.record_error(error_type, operation)`: one increment of the
  error counter keyed by {error-kind, operation}. -/
  | incError (errorType op : String)
deriving DecidableEq, Repr

/-! ### URL-authority extraction

Both `context.py` (line 62) and `decorators.py` (line 32) compute
`urlparse(url).netloc if url else 'unknown'`.  The functions below model the
`netloc` extraction of CPython's `urllib.parse.urlsplit`: strip leading
WHATWG C0-control/space characters, remove every tab/CR/LF, split off a
leading `scheme:` (a letter followed by letters/digits/`+`/`-`/`.`), and if
the remainder starts with `//`, the netloc is everything up to the next
`/`, `?` or `#`; otherwise the netloc is empty.  (The `ValueError` urlsplit
raises for unbalanced IPv6 brackets is outside this model.) -/

/-- WHATWG C0 control or space: code points `U+0000`–`U+0020`. -/
def isC0OrSpace (c : Char) : Bool := c.toNat ≤ 32

/-- `_UNSAFE_URL_BYTES_TO_REMOVE`: tab, CR and LF are removed anywhere. -/
def removeUnsafeUrlBytes (s : String) : String :=
  ⟨s.data.filter fun c => !(c = '\t' || c = '\r' || c = '\n')⟩

/-- Characters allowed after the first character of a URL scheme. -/
def isSchemeChar (c : Char) : Bool :=
  c.isAlphanum || c = '+' || c = '-' || c = '.'

/-- Drop a leading `scheme:` when the text before the first `:` is a valid
scheme name; otherwise return the input unchanged. -/
def afterScheme (l : List Char) : List Char :=
  match l.findIdx? (fun c => c = ':') with
  | none => l
  | some i =>
    match l.take i with
    | [] => l
    | c :: rest =>
      if c.isAlpha && (c :: rest).all isSchemeChar then l.drop (i + 1) else l

/-- The `netloc` component of `urllib.parse.urlparse`. -/
def netlocOf (url : String) : String :=
  let u := removeUnsafeUrlBytes ⟨url.data.dropWhile isC0OrSpace⟩
  match afterScheme u.data with
  | '/' :: '/' :: rest =>
    ⟨rest.takeWhile fun c => !(c = '/' || c = '?' || c = '#')⟩
  | _ => ""

/-- `urlparse(url).netloc if url else 'unknown'` — the URL-authority
expression evaluated on entry to every tracked operation. -/
def url_domain (url : String) : String :=
  if url = "" then "unknown" else netlocOf url

/-! ### Scoped-block form: `ScrapingContext.scrape_operation`

The context-manager body is modelled by its outcome: `Except.ok a` when the
wrapped block exits normally, `Except.error e` when it raises `e`.  The
tracker returns the trace of events it emits together with the value it
delivers to the caller (re-raising is modelled by returning the same
`Except.error`). -/

def scrapeOperation {α : Type} (operationName url : String) (dur : Nat)
    (body : Except PyExc α) : List Event × Except PyExc α :=
  let domain := url_domain url
  match body with
  | Except.ok a =>
    ([Event.ctxLogStarted operationName url domain,
      Event.ctxLogSuccess operationName dur,
      Event.incScrapeRequest operationName "success" domain,
      Event.obsScrapeDuration operationName domain dur],
     Except.ok a)
  | Except.error e =>
    ([Event.ctxLogStarted operationName url domain,
      Event.ctxLogFailed operationName e.ty e.msg dur,
      Event.incScrapeRequest operationName "failed" domain,
      Event.obsScrapeDuration operationName domain dur,
      Event.incError e.ty operationName],
     Except.error e)

/-! ### Event classifiers used by the exactly-once statements -/

/-- A terminal success log event (either call-site form). -/
def isSuccessLogEvent : Event → Bool
  | Event.ctxLogSuccess _ _ => true
  | Event.decLogSuccess _ _ _ => true
  | _ => false

/-- A terminal failure log event (either call-site form). -/
def isFailureLogEvent : Event → Bool
  | Event.ctxLogFailed _ _ _ _ => true
  | Event.decLogError _ _ _ => true
  | _ => false

/-- An increment of the request-outcome counter with the given status label. -/
def isRequestInc (status : String) : Event → Bool
  | Event.incScrapeRequest _ s _ => s = status
  | _ => false

/-- An observation of the scrape-duration histogram. -/
def isDurationObs : Event → Bool
  | Event.obsScrapeDuration _ _ _ => true
  | _ => false

/-- An increment of the error counter. -/
def isErrorInc : Event → Bool
  | Event.incError _ _ => true
  | _ => false

/-- An increment of the items-scraped counter. -/
def isItemsInc : Event → Bool
  | Event.incItemsScraped _ _ _ => true
  | _ => false

/-! ### Decorator form: `track_scrape_operation`

The wrapped function's return value is a Python value; the model keeps the
shapes the decorator inspects (`isinstance(result, (list, tuple))`,
`isinstance(result, dict) and 'items' in result`, `result is not None`). -/

/-- A Python value as observed by the decorator's item-count inference. -/
inductive PyValue where
  | pynone
  | pybool (b : Bool)
  | pyint (n : Int)
  | pystr (s : String)
  | pylist (xs : List PyValue)
  | pytuple (xs : List PyValue)
  | pydict (entries : List (String × PyValue))
deriving Repr

/-- `type(v).__name__`. -/
def pyTypeName : PyValue → String
  | PyValue.pynone => "NoneType"
  | PyValue.pybool _ => "bool"
  | PyValue.pyint _ => "int"
  | PyValue.pystr _ => "str"
  | PyValue.pylist _ => "list"
  | PyValue.pytuple _ => "tuple"
  | PyValue.pydict _ => "dict"

/-- `len(v)`: defined for sequences, strings and mappings; `none` models the
`TypeError` raised for unsized values. -/
def pyLen : PyValue → Option Nat
  | PyValue.pystr s => some s.length
  | PyValue.pylist xs => some xs.length
  | PyValue.pytuple xs => some xs.length
  | PyValue.pydict es => some es.length
  | _ => none

/-- `d[k]` on a dict (keys are unique in a Python dict, so first match). -/
def dictGet (es : List (String × PyValue)) (k : String) : Option PyValue :=
  (es.find? fun p => p.1 = k).map (·.2)

/-- The `TypeError` raised by `len` on an unsized value. -/
def lenTypeError (v : PyValue) : PyExc :=
  ⟨"TypeError", "object of type " ++ pyTypeName v ++ " has no len()"⟩

/-- Item-count inference of `track_scrape_operation` (decorators.py lines
43–49), run inside the `try` block on the wrapped function's return value:
list/tuple → its length; dict containing key `items` → `len(result['items'])`
(which raises `TypeError` when that value is unsized); any other non-`None`
value → 1; `None` → 0. -/
def itemsCountOrErr : PyValue → Except PyExc Nat
  | PyValue.pylist xs => Except.ok xs.length
  | PyValue.pytuple xs => Except.ok xs.length
  | PyValue.pydict es =>
    match dictGet es "items" with
    | some v =>
      match pyLen v with
      | some n => Except.ok n
      | none => Except.error (lenTypeError v)
    | none => Except.ok 1
  | PyValue.pynone => Except.ok 0
  | _ => Except.ok 1

/-- `kwargs.get('url', '') or (args[1] if len(args) > 1 else '')`
(decorators.py line 31): positional arguments are modelled as the strings
relevant to URL recovery. -/
def extractUrl (kwargsUrl : Option String) (args : List String) : String :=
  let kw := kwargsUrl.getD ""
  if kw ≠ "" then kw else (args.get? 1).getD ""

/-- The wrapper produced by `track_scrape_operation(operation_name,
item_type, logger, metrics)`.  `hasLogger`/`hasMetrics` model whether the
optional sinks were supplied (`if logger:` / `if metrics:` guards); the
wrapped call's outcome is `body`.  Returns the emitted trace and the value
delivered to the caller. -/
def trackedWrapper (operationName itemType : String)
    (hasLogger hasMetrics : Bool) (kwargsUrl : Option String)
    (args : List String) (dur : Nat) (body : Except PyExc PyValue) :
    List Event × Except PyExc PyValue :=
  let url := extractUrl kwargsUrl args
  let domain := url_domain url
  let startEv := if hasLogger then [Event.decLogStart url operationName] else []
  match body with
  | Except.ok result =>
    match itemsCountOrErr result with
    | Except.ok n =>
      (startEv
        ++ (if hasLogger then [Event.decLogSuccess url n operationName] else [])
        ++ (if hasMetrics then
              [Event.incScrapeRequest operationName "success" domain,
               Event.obsScrapeDuration operationName domain dur]
              ++ (if 0 < n then [Event.incItemsScraped operationName itemType n] else [])
            else []),
       Except.ok result)
    | Except.error e =>
      -- len(...) raised inside the try block: the except handler records a
      -- failure and re-raises the TypeError.
      (startEv
        ++ (if hasLogger then [Event.decLogError url e.msg operationName] else [])
        ++ (if hasMetrics then
              [Event.incScrapeRequest operationName "failed" domain,
               Event.obsScrapeDuration operationName domain dur,
               Event.incError e.ty operationName]
            else []),
       Except.error e)
  | Except.error e =>
    (startEv
      ++ (if hasLogger then [Event.decLogError url e.msg operationName] else [])
      ++ (if hasMetrics then
            [Event.incScrapeRequest operationName "failed" domain,
             Event.obsScrapeDuration operationName domain dur,
             Event.incError e.ty operationName]
          else []),
     Except.error e)

/-- C1: in the scoped-block form, a block that exits normally produces
exactly one success log event, exactly one request-outcome increment with
status `success`, exactly one duration observation, and no error-counter
increment; the block's value is returned to the caller. -/
theorem scrape_operation_success_exactly_once (α : Type) (op url : String)
    (dur : Nat) (a : α) :
    ((scrapeOperation op url dur (Except.ok a)).1.countP isSuccessLogEvent = 1) ∧
    ((scrapeOperation op url dur (Except.ok a)).1.countP (isRequestInc "success") = 1) ∧
    ((scrapeOperation op url dur (Except.ok a)).1.countP (isRequestInc "failed") = 0) ∧
    ((scrapeOperation op url dur (Except.ok a)).1.countP isDurationObs = 1) ∧
    ((scrapeOperation op url dur (Except.ok a)).1.countP isErrorInc = 0) ∧
    ((scrapeOperation op url dur (Except.ok a)).2 = Except.ok a) := by
  refine ⟨rfl, ?_, ?_, rfl, rfl, rfl⟩ <;>
    simp [scrapeOperation, List.countP_cons, isRequestInc, isSuccessLogEvent,
      isDurationObs, isErrorInc]

/-- C2: a tracked operation whose wrapped unit of work raises produces, in
the scoped-block form, exactly one failure log event, one request-outcome
increment with status `failed`, one duration observation and one
error-counter increment, and the same exception (kind and message) is
re-raised to the caller; the decorator form with both sinks supplied does
the same. -/
theorem scrape_operation_failure_exactly_once (α : Type) (op url itemType : String)
    (dur : Nat) (e : PyExc) (kwargsUrl : Option String) (args : List String) :
    ((scrapeOperation op url dur (Except.error e : Except PyExc α)).1.countP isFailureLogEvent = 1) ∧
    ((scrapeOperation op url dur (Except.error e : Except PyExc α)).1.countP (isRequestInc "failed") = 1) ∧
    ((scrapeOperation op url dur (Except.error e : Except PyExc α)).1.countP isDurationObs = 1) ∧
    ((scrapeOperation op url dur (Except.error e : Except PyExc α)).1.countP isErrorInc = 1) ∧
    ((scrapeOperation op url dur (Except.error e : Except PyExc α)).2 = Except.error e) ∧
    ((trackedWrapper op itemType true true kwargsUrl args dur (Except.error e)).1.countP isFailureLogEvent = 1) ∧
    ((trackedWrapper op itemType true true kwargsUrl args dur (Except.error e)).1.countP (isRequestInc "failed") = 1) ∧
    ((trackedWrapper op itemType true true kwargsUrl args dur (Except.error e)).1.countP isDurationObs = 1) ∧
    ((trackedWrapper op itemType true true kwargsUrl args dur (Except.error e)).1.countP isErrorInc = 1) ∧
    ((trackedWrapper op itemType true true kwargsUrl args dur (Except.error e)).2 = Except.error e) := by
  refine ⟨rfl, ?_, rfl, rfl, rfl, rfl, ?_, rfl, rfl, rfl⟩ <;>
    simp [scrapeOperation, trackedWrapper, List.countP_cons, isRequestInc,
      isFailureLogEvent, isDurationObs, isErrorInc]

/-- C3 counterexample: the non-empty malformed URL `"not a url"` yields
authority `""` (the empty netloc `urlparse` extracts), not `"unknown"` as
the claim states — only the empty URL maps to `"unknown"`. -/
theorem url_domain_malformed_counterexample :
    url_domain "not a url" = "" ∧ ("" : String) ≠ "unknown" := by
  constructor
  · rfl
  · decide

/-- C3 (amended): `"https://example.com/path"` yields authority
`"example.com"` and the empty URL yields `"unknown"`; but a non-empty
malformed URL yields whatever netloc `urlparse` extracts — the empty string
when the URL has no `//`-authority component — and never falls back to
`"unknown"`.  The started event of every tracked operation carries exactly
this authority. -/
theorem url_domain_extraction (op url : String) (dur : Nat) (a : PyValue) :
    url_domain "https://example.com/path" = "example.com" ∧
    url_domain "" = "unknown" ∧
    url_domain "not a url" = "" ∧
    (url ≠ "" → url_domain url = netlocOf url) ∧
    ((scrapeOperation op url dur (Except.ok a)).1.head? =
      some (Event.ctxLogStarted op url (url_domain url))) := by
  refine ⟨by decide, rfl, rfl, fun h => if_neg h, rfl⟩

/-- C3 amended-theorem witness at the concrete URL `"https://example.com"`. -/
theorem url_domain_extraction_witness :
    url_domain "https://example.com" = netlocOf "https://example.com" :=
  (url_domain_extraction "op" "https://example.com" 0 PyValue.pynone).2.2.2.1
    (by decide)

/-! ### Health registry (`health.py`)

A check function is `Callable[[], bool]` that may raise; its behaviour is a
`CheckOutcome`.  Times are abstract: `run` takes the computed duration and
the timestamp as parameters. -/

/-- Outcome of invoking a check function: a returned boolean, or a raised
exception with message `str(e)`. -/
inductive CheckOutcome where
  | ok (b : Bool)
  | exc (msg : String)
deriving DecidableEq, Repr

/-- The fields of `MonitoringConfig` the health registry and the label
contract consume (`config.py`); the network/toggle options are not needed by
any claim.  `custom_labels` is a Python dict, modelled as an ordered
association list with unique keys. -/
structure MonitoringConfig where
  scraper_name : String
  scraper_version : String
  environment : String
  custom_labels : List (String × String)
deriving DecidableEq, Repr

/-- `HealthCheck` (health.py lines 21–32): definition fields plus the
`last_*` fields initialised to `None` and written by `run`. -/
structure HealthCheck where
  name : String
  check_func : Unit → CheckOutcome
  description : String
  timeout : Nat
  last_check_time : Option Nat
  last_status : Option String
  last_error : Option String

/-- The result dict returned by `HealthCheck.run`. -/
structure CheckResult where
  name : String
  status : String
  description : String
  duration_ms : Nat
  timestamp : Nat
  error : Option String
deriving DecidableEq, Repr

/-- `HealthCheck.run` (health.py lines 34–58): invoke the check function —
truthy → `"healthy"`, falsy → `"unhealthy"`, raised → `"unhealthy"` with the
exception's message captured — then update the `last_*` fields and return
the fresh result dict.  `dur` and `t` stand for the measured duration and
`time.time()`. -/
def HealthCheck.run (c : HealthCheck) (dur t : Nat) :
    CheckResult × HealthCheck :=
  let statusError : String × Option String :=
    match c.check_func () with
    | CheckOutcome.ok r => (if r then "healthy" else "unhealthy", none)
    | CheckOutcome.exc msg => ("unhealthy", some msg)
  ({ name := c.name, status := statusError.1, description := c.description,
     duration_ms := dur, timestamp := t, error := statusError.2 },
   { c with last_check_time := some t, last_status := some statusError.1,
            last_error := statusError.2 })

/-- One step of the running aggregate inside the `run_checks` loop
(health.py lines 127–130). -/
def nextOverall (overall s : String) : String :=
  if s = "unhealthy" then "unhealthy"
  else if s = "degraded" ∧ overall = "healthy" then "degraded"
  else overall

/-- The aggregate status `run_checks` computes over the result statuses in
registration order, starting from `"healthy"`. -/
def overallStatus (statuses : List String) : String :=
  statuses.foldl nextOverall "healthy"

/-- The report dict returned by `HealthChecker.run_checks`. -/
structure HealthReport where
  status : String
  timestamp : Nat
  scraper : String
  version : String
  environment : String
  checks : List CheckResult
deriving DecidableEq, Repr

/-- `HealthChecker.run_checks` (health.py lines 118–139).  The source runs
the checks, collects the results and folds the running aggregate in one
loop over `self.checks` in registration order; here the same computation is
written as a map over the checks plus `overallStatus` over the result
statuses.  The updated checks (with their `last_*` fields written) are
returned alongside the report. -/
def runChecks (cfg : MonitoringConfig) (checks : List HealthCheck)
    (dur t : Nat) : HealthReport × List HealthCheck :=
  let results := checks.map fun c => (c.run dur t).1
  ({ status := overallStatus (results.map (·.status)),
     timestamp := t, scraper := cfg.scraper_name,
     version := cfg.scraper_version, environment := cfg.environment,
     checks := results },
   checks.map fun c => (c.run dur t).2)

/-- `HealthChecker.add_check` (health.py lines 108–112): unconditionally
appends a fresh `HealthCheck`, even when the name is already present. -/
def addCheck (checks : List HealthCheck) (name : String)
    (check_func : Unit → CheckOutcome) (description : String)
    (timeout : Nat) : List HealthCheck :=
  checks ++ [{ name := name, check_func := check_func,
               description := description, timeout := timeout,
               last_check_time := none, last_status := none,
               last_error := none }]

/-- `HealthChecker.remove_check` (health.py lines 114–116): keep every
check whose name differs. -/
def removeCheck (checks : List HealthCheck) (name : String) :
    List HealthCheck :=
  checks.filter fun c => c.name ≠ name

/-- The HTTP status code `/health` responds with, from the report's
aggregate status (health.py lines 170–175). -/
def healthHttpStatusCode (s : String) : Nat :=
  if s = "healthy" then 200
  else if s = "degraded" then 200
  else 503

theorem nextOverall_unhealthy (s : String) :
    nextOverall "unhealthy" s = "unhealthy" := by
  unfold nextOverall
  split
  · rfl
  · split
    · rename_i h
      exact absurd h.2 (by decide)
    · rfl

theorem foldl_nextOverall_unhealthy (l : List String) :
    l.foldl nextOverall "unhealthy" = "unhealthy" := by
  induction l with
  | nil => rfl
  | cons s t ih => rw [List.foldl_cons, nextOverall_unhealthy, ih]

theorem nextOverall_degraded (s : String) :
    nextOverall "degraded" s = if s = "unhealthy" then "unhealthy" else "degraded" := by
  unfold nextOverall
  by_cases h : s = "unhealthy"
  · simp [h]
  · by_cases h2 : s = "degraded" <;>
      simp [h, h2, show ("degraded" : String) ≠ "healthy" by decide]

theorem foldl_nextOverall_degraded (l : List String) :
    l.foldl nextOverall "degraded" =
      if "unhealthy" ∈ l then "unhealthy" else "degraded" := by
  induction l with
  | nil => simp
  | cons s t ih =>
    rw [List.foldl_cons, nextOverall_degraded]
    by_cases h : s = "unhealthy"
    · subst h
      simp [foldl_nextOverall_unhealthy]
    · simp only [if_neg h, ih, List.mem_cons]
      have : ¬ ("unhealthy" = s) := fun hc => h hc.symm
      simp [this]

theorem overallStatus_eq_worst (l : List String) :
    overallStatus l =
      if "unhealthy" ∈ l then "unhealthy"
      else if "degraded" ∈ l then "degraded" else "healthy" := by
  induction l with
  | nil => rfl
  | cons s t ih =>
    unfold overallStatus at ih ⊢
    rw [List.foldl_cons]
    by_cases h1 : s = "unhealthy"
    · subst h1
      rw [show nextOverall "healthy" "unhealthy" = "unhealthy" by decide,
        foldl_nextOverall_unhealthy]
      simp
    · by_cases h2 : s = "degraded"
      · subst h2
        rw [show nextOverall "healthy" "degraded" = "degraded" by decide,
          foldl_nextOverall_degraded]
        have hne : ¬ ("unhealthy" = "degraded") := by decide
        simp [List.mem_cons, hne]
      · have hstep : nextOverall "healthy" s = "healthy" := by
          unfold nextOverall
          simp [h1, h2]
        rw [hstep, ih]
        have hu : ¬ ("unhealthy" = s) := fun hc => h1 hc.symm
        have hd : ¬ ("degraded" = s) := fun hc => h2 hc.symm
        simp [List.mem_cons, hu, hd]

/-- C4: the aggregate status computed by `run_checks` is the order-independent
worst-of rollup — `"unhealthy"` if any result is unhealthy, else `"degraded"`
if any is degraded, else `"healthy"` — and the `/health` endpoint answers 200
exactly when the aggregate is not `"unhealthy"`, 503 when it is. -/
theorem run_checks_aggregate_worst_of :
    (∀ l : List String, overallStatus l =
       if "unhealthy" ∈ l then "unhealthy"
       else if "degraded" ∈ l then "degraded" else "healthy") ∧
    (∀ l l' : List String, l.Perm l' → overallStatus l = overallStatus l') ∧
    (∀ (cfg : MonitoringConfig) (checks : List HealthCheck) (dur t : Nat),
       (runChecks cfg checks dur t).1.status =
         overallStatus (((runChecks cfg checks dur t).1.checks).map (·.status))) ∧
    (∀ (cfg : MonitoringConfig) (checks : List HealthCheck) (dur t : Nat),
       healthHttpStatusCode ((runChecks cfg checks dur t).1.status) =
         if (runChecks cfg checks dur t).1.status = "unhealthy" then 503 else 200) := by
  refine ⟨overallStatus_eq_worst, ?_, ?_, ?_⟩
  · intro l l' hp
    rw [overallStatus_eq_worst, overallStatus_eq_worst]
    simp [hp.mem_iff]
  · intro cfg checks dur t
    rfl
  · intro cfg checks dur t
    have h3 : (runChecks cfg checks dur t).1.status = "unhealthy" ∨
        (runChecks cfg checks dur t).1.status = "degraded" ∨
        (runChecks cfg checks dur t).1.status = "healthy" := by
      rw [show (runChecks cfg checks dur t).1.status =
          overallStatus (((runChecks cfg checks dur t).1.checks).map (·.status))
          from rfl, overallStatus_eq_worst]
      split_ifs <;> simp
    rcases h3 with h | h | h <;> rw [h] <;> decide

/-- C4 witness: a transposed pair of statuses yields the same aggregate, and
the claim's sample vectors evaluate as stated. -/
theorem run_checks_aggregate_worst_of_witness :
    overallStatus ["healthy", "unhealthy"] = overallStatus ["unhealthy", "healthy"] :=
  run_checks_aggregate_worst_of.2.1 _ _ (List.Perm.swap _ _ _)

/-- C5 counterexample: a check function that raises an exception whose
`str(e)` is the empty string is recorded as unhealthy with error-message
`""` — the captured error-message is empty, not non-empty as claimed. -/
theorem raising_check_empty_message_counterexample :
    ((runChecks ⟨"s", "1.0", "dev", []⟩
        [⟨"failing", fun _ => CheckOutcome.exc "", "", 5, none, none, none⟩]
        0 0).1.checks.map (·.status) = ["unhealthy"]) ∧
    ((runChecks ⟨"s", "1.0", "dev", []⟩
        [⟨"failing", fun _ => CheckOutcome.exc "", "", 5, none, none, none⟩]
        0 0).1.checks.map (·.error) = [some ""]) ∧
    ("" : String).length = 0 :=
  ⟨rfl, rfl, rfl⟩

/-- C5 (amended): a check function that raises is recorded as `"unhealthy"`
with the fault's message captured as its error-message (present, though it
equals the empty string when `str(e)` is empty), the fault never propagates
out of `run_checks`, and every other check in the same run — in particular
each one registered after it — still executes and contributes its own
result at its own position. -/
theorem raising_check_isolated (cfg : MonitoringConfig)
    (pre post : List HealthCheck) (name description msg : String)
    (timeout dur t : Nat) :
    ((runChecks cfg
        (pre ++ ⟨name, fun _ => CheckOutcome.exc msg, description, timeout,
                 none, none, none⟩ :: post) dur t).1.checks.length =
      (pre ++ ⟨name, fun _ => CheckOutcome.exc msg, description, timeout,
               none, none, none⟩ :: post).length) ∧
    ((runChecks cfg
        (pre ++ ⟨name, fun _ => CheckOutcome.exc msg, description, timeout,
                 none, none, none⟩ :: post) dur t).1.checks[pre.length]? =
      some ⟨name, "unhealthy", description, dur, t, some msg⟩) ∧
    (∀ i : Nat,
      (runChecks cfg
          (pre ++ ⟨name, fun _ => CheckOutcome.exc msg, description, timeout,
                   none, none, none⟩ :: post) dur t).1.checks[i]? =
        ((pre ++ ⟨name, fun _ => CheckOutcome.exc msg, description, timeout,
                  none, none, none⟩ :: post)[i]?).map
          (fun c => (c.run dur t).1)) := by
  refine ⟨by simp [runChecks], ?_, ?_⟩
  · show ((pre ++ _ :: post).map fun c => (c.run dur t).1)[pre.length]? = _
    rw [List.getElem?_map, List.getElem?_append_right (Nat.le_refl _)]
    simp [HealthCheck.run]
  · intro i
    show ((pre ++ _ :: post).map fun c => (c.run dur t).1)[i]? = _
    rw [List.getElem?_map]

/-- C6 counterexample: running a registered check mutates it — the
`last_status` field (here also `last_check_time` and `last_error`) changes
from `None` to the run's outcome, so the updated check differs from the
registered one. -/
theorem run_mutates_check_counterexample :
    ((({ name := "cpu_usage", check_func := fun _ => CheckOutcome.ok true,
         description := "Check if CPU usage is below 90%", timeout := 5,
         last_check_time := none, last_status := none,
         last_error := none } : HealthCheck).run 0 0).2.last_status =
      some "healthy") ∧
    (({ name := "cpu_usage", check_func := fun _ => CheckOutcome.ok true,
        description := "Check if CPU usage is below 90%", timeout := 5,
        last_check_time := none, last_status := none,
        last_error := none } : HealthCheck).last_status = none) ∧
    ((({ name := "cpu_usage", check_func := fun _ => CheckOutcome.ok true,
         description := "Check if CPU usage is below 90%", timeout := 5,
         last_check_time := none, last_status := none,
         last_error := none } : HealthCheck).run 0 0).2 ≠
      { name := "cpu_usage", check_func := fun _ => CheckOutcome.ok true,
        description := "Check if CPU usage is below 90%", timeout := 5,
        last_check_time := none, last_status := none,
        last_error := none }) := by
  refine ⟨rfl, rfl, fun h => ?_⟩
  exact Option.noConfusion (congrArg HealthCheck.last_status h)

/-- C6 (amended): running a check leaves its definition fields (name, check
function, description, timeout) unchanged but does mutate its bookkeeping
fields, setting `last_check_time`, `last_status` and `last_error` to the
run's outcome; the per-run result itself is computed fresh — it does not
depend on the previously stored `last_*` values — and `run_checks` preserves
the set of registered check names. -/
theorem run_updates_only_last_fields (cfg : MonitoringConfig)
    (checks : List HealthCheck) (c : HealthCheck) (dur t : Nat) :
    ((c.run dur t).2.name = c.name) ∧
    ((c.run dur t).2.check_func = c.check_func) ∧
    ((c.run dur t).2.description = c.description) ∧
    ((c.run dur t).2.timeout = c.timeout) ∧
    ((c.run dur t).2.last_check_time = some t) ∧
    ((c.run dur t).2.last_status = some (c.run dur t).1.status) ∧
    ((c.run dur t).2.last_error = (c.run dur t).1.error) ∧
    (∀ lct ls le,
      (({ c with last_check_time := lct, last_status := ls, last_error := le } : HealthCheck).run dur t).1 =
        (c.run dur t).1) ∧
    ((runChecks cfg checks dur t).2.map HealthCheck.name =
      checks.map HealthCheck.name) := by
  refine ⟨rfl, rfl, rfl, rfl, rfl, rfl, rfl, fun lct ls le => rfl, ?_⟩
  show (checks.map fun c => (c.run dur t).2).map HealthCheck.name = _
  rw [List.map_map]
  rfl

/-- C7: `add_check` appends unconditionally — deterministically, also when
the name is already present — `remove_check` removes every check with the
given name and is a no-op when no check has it, and a report produced after
adding a check named `n` and then removing `n` contains no entry named `n`. -/
theorem add_remove_check_spec :
    (∀ (checks : List HealthCheck) (n : String) (f : Unit → CheckOutcome)
       (d : String) (tmo : Nat),
       addCheck checks n f d tmo = checks ++ [⟨n, f, d, tmo, none, none, none⟩]) ∧
    (∀ (checks : List HealthCheck) (n : String),
       (∀ c ∈ checks, c.name ≠ n) → removeCheck checks n = checks) ∧
    (∀ (checks : List HealthCheck) (n : String) (c : HealthCheck),
       c ∈ removeCheck checks n → c.name ≠ n) ∧
    (∀ (cfg : MonitoringConfig) (checks : List HealthCheck) (n : String)
       (f : Unit → CheckOutcome) (d : String) (tmo dur t : Nat),
       ∀ r ∈ (runChecks cfg (removeCheck (addCheck checks n f d tmo) n) dur t).1.checks,
         r.name ≠ n) := by
  refine ⟨fun _ _ _ _ _ => rfl, ?_, ?_, ?_⟩
  · intro checks n h
    exact List.filter_eq_self.mpr fun c hc => by simpa using h c hc
  · intro checks n c hc
    simpa using List.of_mem_filter hc
  · intro cfg checks n f d tmo dur t r hr
    obtain ⟨c, hc, rfl⟩ := List.mem_map.mp hr
    show c.name ≠ n
    simpa using List.of_mem_filter hc

/-- C7 witness: removing a name from an empty registry is a no-op. -/
theorem add_remove_check_spec_witness :
    removeCheck [] "x" = [] :=
  add_remove_check_spec.2.1 [] "x" (by simp)

/-- Total amount added to the items-scraped counter across a trace. -/
def itemsDelta (tr : List Event) : Nat :=
  (tr.map fun e =>
    match e with
    | Event.incItemsScraped _ _ n => n
    | _ => 0).sum

/-- C8: the decorator's item-count inference follows the fixed precedence —
list/tuple → its length; dict containing key `items` → the length of that
value; any other non-`None` return → 1; `None` → 0 — and on a successful
call the items-scraped counter grows by exactly the inferred count, with the
increment skipped when the count is zero. -/
theorem item_count_inference_spec :
    (∀ xs : List PyValue, itemsCountOrErr (PyValue.pylist xs) = Except.ok xs.length) ∧
    (∀ xs : List PyValue, itemsCountOrErr (PyValue.pytuple xs) = Except.ok xs.length) ∧
    (∀ (es : List (String × PyValue)) (v : PyValue) (n : Nat),
       dictGet es "items" = some v → pyLen v = some n →
       itemsCountOrErr (PyValue.pydict es) = Except.ok n) ∧
    (∀ es : List (String × PyValue), dictGet es "items" = none →
       itemsCountOrErr (PyValue.pydict es) = Except.ok 1) ∧
    (itemsCountOrErr PyValue.pynone = Except.ok 0) ∧
    (∀ s : String, itemsCountOrErr (PyValue.pystr s) = Except.ok 1) ∧
    (∀ i : Int, itemsCountOrErr (PyValue.pyint i) = Except.ok 1) ∧
    (∀ b : Bool, itemsCountOrErr (PyValue.pybool b) = Except.ok 1) ∧
    (∀ (op it : String) (kwargsUrl : Option String) (args : List String)
       (dur : Nat) (v : PyValue) (n : Nat),
       itemsCountOrErr v = Except.ok n →
       itemsDelta (trackedWrapper op it true true kwargsUrl args dur (Except.ok v)).1 = n ∧
       (trackedWrapper op it true true kwargsUrl args dur (Except.ok v)).1.countP isItemsInc =
         (if 0 < n then 1 else 0)) := by
  refine ⟨fun _ => rfl, fun _ => rfl, ?_, ?_, rfl, fun _ => rfl, fun _ => rfl,
    fun _ => rfl, ?_⟩
  · intro es v n h1 h2
    simp only [itemsCountOrErr, h1, h2]
  · intro es h1
    simp only [itemsCountOrErr, h1]
  · intro op it kwargsUrl args dur v n h
    constructor <;>
      · simp only [trackedWrapper, h]
        by_cases hn : 0 < n <;>
          simp [hn, itemsDelta, isItemsInc, List.countP_append,
            List.countP_cons, Nat.eq_zero_of_not_pos]

/-- C8 witness: a returned list of length 3 adds exactly 3 to the
items-scraped counter. -/
theorem item_count_inference_spec_witness :
    itemsDelta (trackedWrapper "scrape" "item" true true none [] 0
      (Except.ok (PyValue.pylist
        [PyValue.pyint 1, PyValue.pyint 2, PyValue.pyint 3]))).1 = 3 :=
  (item_count_inference_spec.2.2.2.2.2.2.2.2 "scrape" "item" none [] 0
    (PyValue.pylist [PyValue.pyint 1, PyValue.pyint 2, PyValue.pyint 3]) 3
    rfl).1

/-! ### Identity-label contract (`config.get_base_labels`,
`logger._setup_logging`, `metrics._get_labels_dict`)

A Python string-keyed dict is modelled as an ordered association list;
assignment updates in place when the key exists and appends otherwise. -/

/-- `d[k] = v` on a Python dict. -/
def dictSet (d : List (String × String)) (k v : String) :
    List (String × String) :=
  if d.any fun p => p.1 = k then
    d.map fun p => if p.1 = k then (k, v) else p
  else d ++ [(k, v)]

/-- `d.update(u)`: assign every entry of `u` in order. -/
def dictUpdate (d u : List (String × String)) : List (String × String) :=
  u.foldl (fun acc p => dictSet acc p.1 p.2) d

/-- `d.get(k)`. -/
def dictLookup (d : List (String × String)) (k : String) : Option String :=
  (d.find? fun p => p.1 = k).map (·.2)

/-- `MonitoringConfig.get_base_labels` (config.py lines 90–98): the three
identity labels, then `labels.update(self.custom_labels)`. -/
def get_base_labels (cfg : MonitoringConfig) : List (String × String) :=
  dictUpdate
    [("scraper_name", cfg.scraper_name),
     ("scraper_version", cfg.scraper_version),
     ("environment", cfg.environment)]
    cfg.custom_labels

/-- The permanent context the logger binds at setup
(`self._logger.bind(**self.config.get_base_labels())`, logger.py line 65):
every log record carries exactly these key/value pairs. -/
def loggerBoundContext (cfg : MonitoringConfig) : List (String × String) :=
  get_base_labels cfg

/-- `ScraperMetrics._get_labels_dict` (metrics.py lines 135–140): the base
labels, updated with the per-call labels. -/
def getLabelsDict (cfg : MonitoringConfig)
    (additional : List (String × String)) : List (String × String) :=
  dictUpdate (get_base_labels cfg) additional

/-- Label set of one `record_scrape_request` call (metrics.py lines 142–149). -/
def recordScrapeRequestLabels (cfg : MonitoringConfig)
    (operation status domain : String) : List (String × String) :=
  getLabelsDict cfg
    [("operation", operation), ("status", status), ("url_domain", domain)]

/-- Label set of one `record_error` call (metrics.py lines 184–190). -/
def recordErrorLabels (cfg : MonitoringConfig) (errorType operation : String) :
    List (String × String) :=
  getLabelsDict cfg [("error_type", errorType), ("operation", operation)]

theorem find?_map_set_ne (d : List (String × String)) (kk v k : String)
    (h : kk ≠ k) :
    (d.map fun p => if p.1 = kk then (kk, v) else p).find? (fun p => p.1 = k) =
      d.find? fun p => p.1 = k := by
  induction d with
  | nil => rfl
  | cons p t ih =>
    by_cases hp : p.1 = kk
    · rw [List.map_cons, if_pos hp]
      rw [List.find?_cons_of_neg _ (by simpa using h),
        List.find?_cons_of_neg _ (by simp [hp, h]), ih]
    · rw [List.map_cons, if_neg hp]
      by_cases hk : p.1 = k
      · rw [List.find?_cons_of_pos _ (by simpa using hk),
          List.find?_cons_of_pos _ (by simpa using hk)]
      · rw [List.find?_cons_of_neg _ (by simpa using hk),
          List.find?_cons_of_neg _ (by simpa using hk), ih]

theorem dictLookup_dictSet_ne (d : List (String × String)) (kk v k : String)
    (h : kk ≠ k) : dictLookup (dictSet d kk v) k = dictLookup d k := by
  unfold dictSet dictLookup
  split
  · rw [find?_map_set_ne d kk v k h]
  · rw [List.find?_append]
    have : ([(kk, v)].find? fun p => p.1 = k) = none :=
      List.find?_cons_of_neg _ (by simpa using h)
    rw [this]
    cases d.find? fun p => p.1 = k <;> rfl

theorem dictLookup_dictUpdate_of_not_mem (u : List (String × String)) :
    ∀ (d : List (String × String)) (k : String), (∀ p ∈ u, p.1 ≠ k) →
      dictLookup (dictUpdate d u) k = dictLookup d k := by
  induction u with
  | nil => intro d k _; rfl
  | cons p t ih =>
    intro d k h
    show dictLookup (dictUpdate (dictSet d p.1 p.2) t) k = dictLookup d k
    rw [ih (dictSet d p.1 p.2) k fun q hq => h q (List.mem_cons_of_mem _ hq),
      dictLookup_dictSet_ne d p.1 p.2 k (h p (List.mem_cons_self _ _))]

/-- C9: the logger's permanent bound context is exactly
`get_base_labels(config)`, every metric label set is that same base set
merged with the per-call labels, and on every identity key not shadowed by a
per-call label the metric label set and the log context agree — so the
identity labels (name, version, environment, custom) are attached
identically to every metric sample and every log record of one configured
context. -/
theorem identity_labels_consistent :
    (∀ cfg : MonitoringConfig, loggerBoundContext cfg = get_base_labels cfg) ∧
    (∀ (cfg : MonitoringConfig) (additional : List (String × String)),
       getLabelsDict cfg additional = dictUpdate (get_base_labels cfg) additional) ∧
    (∀ (cfg : MonitoringConfig) (additional : List (String × String)) (k : String),
       (∀ p ∈ additional, p.1 ≠ k) →
       dictLookup (getLabelsDict cfg additional) k =
         dictLookup (loggerBoundContext cfg) k) ∧
    (∀ (cfg : MonitoringConfig) (operation status domain k : String),
       k ≠ "operation" → k ≠ "status" → k ≠ "url_domain" →
       dictLookup (recordScrapeRequestLabels cfg operation status domain) k =
         dictLookup (loggerBoundContext cfg) k) ∧
    (∀ (cfg : MonitoringConfig) (errorType operation k : String),
       k ≠ "error_type" → k ≠ "operation" →
       dictLookup (recordErrorLabels cfg errorType operation) k =
         dictLookup (loggerBoundContext cfg) k) := by
  refine ⟨fun _ => rfl, fun _ _ => rfl, ?_, ?_, ?_⟩
  · intro cfg additional k h
    exact dictLookup_dictUpdate_of_not_mem additional (get_base_labels cfg) k h
  · intro cfg operation status domain k h1 h2 h3
    refine dictLookup_dictUpdate_of_not_mem _ (get_base_labels cfg) k ?_
    intro p hp
    simp only [List.mem_cons, List.not_mem_nil, or_false] at hp
    rcases hp with rfl | rfl | rfl
    · exact Ne.symm h1
    · exact Ne.symm h2
    · exact Ne.symm h3
  · intro cfg errorType operation k h1 h2
    refine dictLookup_dictUpdate_of_not_mem _ (get_base_labels cfg) k ?_
    intro p hp
    simp only [List.mem_cons, List.not_mem_nil, or_false] at hp
    rcases hp with rfl | rfl
    · exact Ne.symm h1
    · exact Ne.symm h2

/-- C9 witness: with a custom label present, a metric recording's label set
and the log context agree on the identity key `scraper_name`. -/
theorem identity_labels_consistent_witness :
    dictLookup (recordScrapeRequestLabels ⟨"s1", "1.0", "prod", [("team", "data")]⟩
        "fetch" "success" "example.com") "scraper_name" =
      dictLookup (loggerBoundContext ⟨"s1", "1.0", "prod", [("team", "data")]⟩)
        "scraper_name" :=
  identity_labels_consistent.2.2.2.1 ⟨"s1", "1.0", "prod", [("team", "data")]⟩
    "fetch" "success" "example.com" "scraper_name" (by decide) (by decide)
    (by decide)

/-- C10 counterexample: with both sinks left at their `None` defaults the
wrapper is not observationally equal to the wrapped function — the
item-count inference still runs, so a function returning the dict
`{'items': 5}` succeeds while its wrapper raises the `TypeError` from
`len(result['items'])` instead of returning the dict (though it does emit
no events). -/
theorem untracked_wrapper_not_transparent_counterexample :
    ((trackedWrapper "scrape" "item" false false none [] 0
        (Except.ok (PyValue.pydict [("items", PyValue.pyint 5)]))).1 = []) ∧
    ((trackedWrapper "scrape" "item" false false none [] 0
        (Except.ok (PyValue.pydict [("items", PyValue.pyint 5)]))).2 =
      Except.error ⟨"TypeError", "object of type int has no len()"⟩) ∧
    ((trackedWrapper "scrape" "item" false false none [] 0
        (Except.ok (PyValue.pydict [("items", PyValue.pyint 5)]))).2 ≠
      Except.ok (PyValue.pydict [("items", PyValue.pyint 5)])) := by
  refine ⟨rfl, rfl, fun h => ?_⟩
  rw [show (trackedWrapper "scrape" "item" false false none [] 0
      (Except.ok (PyValue.pydict [("items", PyValue.pyint 5)]))).2 =
      Except.error ⟨"TypeError", "object of type int has no len()"⟩ from rfl] at h
  exact Except.noConfusion h

/-- C10 (amended): with `logger=None` and `metrics=None` the wrapper emits
no log events and no metric recordings, re-raises every exception of the
wrapped function unchanged, and returns the wrapped function's value
unchanged whenever the item-count inference does not fault; but when the
return value is a dict whose `items` value is unsized, the wrapper raises
the inference's `TypeError` in place of returning the value — the wrapper is
silent but not fully transparent. -/
theorem untracked_wrapper_transparent (op it : String)
    (kwargsUrl : Option String) (args : List String) (dur : Nat)
    (body : Except PyExc PyValue) :
    ((trackedWrapper op it false false kwargsUrl args dur body).1 = []) ∧
    (∀ e : PyExc, body = Except.error e →
      (trackedWrapper op it false false kwargsUrl args dur body).2 =
        Except.error e) ∧
    (∀ (v : PyValue) (n : Nat), body = Except.ok v →
      itemsCountOrErr v = Except.ok n →
      (trackedWrapper op it false false kwargsUrl args dur body).2 =
        Except.ok v) ∧
    (∀ (v : PyValue) (e : PyExc), body = Except.ok v →
      itemsCountOrErr v = Except.error e →
      (trackedWrapper op it false false kwargsUrl args dur body).2 =
        Except.error e) := by
  refine ⟨?_, ?_, ?_, ?_⟩
  · cases body with
    | ok v =>
      simp only [trackedWrapper]
      cases itemsCountOrErr v <;> simp
    | error e => simp [trackedWrapper]
  · rintro e rfl
    rfl
  · rintro v n rfl h
    simp only [trackedWrapper, h]
  · rintro v e rfl h
    simp only [trackedWrapper, h]

/-- C10 amended-theorem witness: an untracked wrapper around a function
returning the empty list hands the empty list straight back. -/
theorem untracked_wrapper_transparent_witness :
    (trackedWrapper "scrape" "item" false false none [] 0
      (Except.ok (PyValue.pylist []))).2 = Except.ok (PyValue.pylist []) :=
  (untracked_wrapper_transparent "scrape" "item" none [] 0
    (Except.ok (PyValue.pylist []))).2.2.1 (PyValue.pylist []) 0 rfl rfl
